import Mathlib

/-!
Shallow embedding of the sciplayer-api persistence engine
(`internal/store/sqlite`, interface `internal/store`) and of the relevant
validation path of the request adapter (`internal/api`).

The durable store is modelled as an explicit state: the `devices` and
`playlists` tables are lists of rows, each table carrying its AUTOINCREMENT
counter.  `CURRENT_TIMESTAMP` is modelled by passing the clock value `now`
explicitly to each operation that stamps a row.  A SQL transaction is
modelled by computing the tentative post-state and installing it only on
commit; any error before commit triggers the deferred `tx.Rollback()`,
which restores the pre-transaction state.  Storage faults inside the
transaction of `AddPlaylist` are modelled by a `Fault` parameter naming the
statement at which the fault fires.
-/

namespace SciPlayer

/-- Row of the `devices` table: `id INTEGER PRIMARY KEY AUTOINCREMENT`,
`device_identifier TEXT NOT NULL UNIQUE`, `created_at DATETIME`. -/
structure DeviceRow where
  id : Nat
  deviceIdentifier : String
  createdAt : Nat
deriving DecidableEq

/-- Row of the `playlists` table: `id INTEGER PRIMARY KEY AUTOINCREMENT`,
`device_identifier TEXT NOT NULL` (foreign key into `devices`),
`name TEXT NOT NULL`, `url TEXT NOT NULL`, `created_at DATETIME`. -/
structure PlaylistRow where
  id : Nat
  deviceIdentifier : String
  name : String
  url : String
  createdAt : Nat
deriving DecidableEq

/-- The value type `store.Playlist` returned by `ListPlaylists`
(fields `Name`, `URL`, `CreatedAt`). -/
structure Playlist where
  name : String
  url : String
  createdAt : Nat
deriving DecidableEq

/-- Engine-level error taxonomy: `store.ErrDeviceNotFound`, and any
lower-level storage error (wrapped `fmt.Errorf` values). -/
inductive StoreError where
  | deviceNotFound
  | ioFailure
deriving DecidableEq

/-- The live store state behind an open handle: both tables present, each
with its rows and its next AUTOINCREMENT value. -/
structure State where
  devices : List DeviceRow
  nextDeviceId : Nat
  playlists : List PlaylistRow
  nextPlaylistId : Nat
deriving DecidableEq

/-- State of a freshly opened store (both tables just created empty). -/
def initState : State :=
  { devices := [], nextDeviceId := 1, playlists := [], nextPlaylistId := 1 }

/-- The existence check `SELECT 1 FROM devices WHERE device_identifier = ?`:
true iff some device row carries the identifier. -/
def deviceExists (s : State) (deviceID : String) : Bool :=
  s.devices.any (fun d => d.deviceIdentifier == deviceID)

/-- `Store.CreateDevice`: `INSERT INTO devices (device_identifier) VALUES (?)
ON CONFLICT(device_identifier) DO NOTHING;` then `RowsAffected() > 0`.
On conflict no row is written and zero rows are affected, so the call
returns `false` with the state untouched; otherwise a fresh row is inserted
with the next AUTOINCREMENT id and the current timestamp, and the call
returns `true`. -/
def createDevice (s : State) (now : Nat) (deviceID : String) : Bool × State :=
  if deviceExists s deviceID then
    (false, s)
  else
    (true,
      { s with
        devices := s.devices ++
          [{ id := s.nextDeviceId, deviceIdentifier := deviceID, createdAt := now }],
        nextDeviceId := s.nextDeviceId + 1 })

/-- Injection point for a storage fault inside the `AddPlaylist`
transaction: `none` is the fault-free run, `atInsert` fails the
`INSERT INTO playlists` statement, `atCommit` fails `tx.Commit()`.
Both fault points sit after the device-existence check and before a
successful commit. -/
inductive Fault where
  | none
  | atInsert
  | atCommit
deriving DecidableEq

/-- `Store.AddPlaylist`: begins a transaction, runs the device-existence
check, and inserts the playlist row.  A missing device surfaces
`store.ErrDeviceNotFound`; any storage fault surfaces a wrapped error.  In
every error path the deferred `tx.Rollback()` discards the transaction, so
the pre-call state is returned; only `tx.Commit()` installs the tentative
state containing the new row. -/
def addPlaylist (s : State) (fault : Fault) (now : Nat)
    (deviceID name playlistURL : String) : Except StoreError Unit × State :=
  if deviceExists s deviceID then
    match fault with
    | .atInsert => (.error .ioFailure, s)
    | .atCommit => (.error .ioFailure, s)
    | .none =>
      (.ok (),
        { s with
          playlists := s.playlists ++
            [{ id := s.nextPlaylistId, deviceIdentifier := deviceID,
               name := name, url := playlistURL, createdAt := now }],
          nextPlaylistId := s.nextPlaylistId + 1 })
  else
    (.error .deviceNotFound, s)

/-- The sort key of `ORDER BY created_at ASC, id ASC`: lexicographic on
creation timestamp, then on the AUTOINCREMENT insertion sequence. -/
def rowLe (a b : PlaylistRow) : Bool :=
  decide (a.createdAt < b.createdAt ∨
    (a.createdAt = b.createdAt ∧ a.id ≤ b.id))

/-- Projection applied by the row scan of `ListPlaylists`:
`SELECT name, url, created_at`. -/
def toPlaylist (p : PlaylistRow) : Playlist :=
  { name := p.name, url := p.url, createdAt := p.createdAt }

/-- `Store.ListPlaylists`: first the device-existence check (missing device
surfaces `store.ErrDeviceNotFound`), then
`SELECT name, url, created_at FROM playlists WHERE device_identifier = ?
ORDER BY created_at ASC, id ASC`, collected into a slice initialised to
length zero (so a device without playlists yields an empty slice, not an
error). -/
def listPlaylists (s : State) (deviceID : String) :
    Except StoreError (List Playlist) :=
  if deviceExists s deviceID then
    .ok ((((s.playlists.filter
        (fun p => p.deviceIdentifier == deviceID)).mergeSort rowLe).map toPlaylist))
  else
    .error .deviceNotFound

/-- A table of the backing database file: its rows plus the persisted
AUTOINCREMENT sequence value. -/
structure Table (ρ : Type) where
  rows : List ρ
  seq : Nat
deriving DecidableEq

/-- The backing database file as seen by `migrate`: each table either
absent (fresh file) or present with its contents. -/
structure DBFile where
  devices : Option (Table DeviceRow)
  playlists : Option (Table PlaylistRow)
deriving DecidableEq

/-- Whether both tables of the schema already exist. -/
def schemaInitialized (f : DBFile) : Bool :=
  f.devices.isSome && f.playlists.isSome

/-- `migrate`: `CREATE TABLE IF NOT EXISTS devices ...` then
`CREATE TABLE IF NOT EXISTS playlists ...`.  A missing table is created
empty with a fresh sequence; an existing table is left untouched, rows
included. -/
def migrate (f : DBFile) : DBFile :=
  let f1 : DBFile :=
    { f with devices := some (f.devices.getD { rows := [], seq := 1 }) }
  { f1 with playlists := some (f1.playlists.getD { rows := [], seq := 1 }) }

/-- States reachable from a freshly opened store by any sequence of engine
calls.  `ListPlaylists` reads without writing, so only `CreateDevice` and
`AddPlaylist` (with any fault outcome) appear as steps. -/
inductive Reachable : State → Prop where
  | init : Reachable initState
  | register (s : State) (now : Nat) (deviceID : String) :
      Reachable s → Reachable (createDevice s now deviceID).2
  | attach (s : State) (fault : Fault) (now : Nat)
      (deviceID name url : String) :
      Reachable s → Reachable (addPlaylist s fault now deviceID name url).2

/-- Referential integrity of a state: every playlist row names an existing
device. -/
def refIntact (s : State) : Prop :=
  ∀ p ∈ s.playlists, deviceExists s p.deviceIdentifier = true

/-- Model of `strings.TrimSpace` from the Go standard library: removes
leading and trailing whitespace. -/
def trimSpace (s : String) : String :=
  String.mk (((s.toList.dropWhile Char.isWhitespace).reverse.dropWhile
    Char.isWhitespace).reverse)

/-- Splits a character list at the first occurrence of `sep`: the part
before it and the part after it, or `none` when `sep` does not occur. -/
def breakOn (sep : List Char) : List Char → Option (List Char × List Char)
  | [] => none
  | c :: cs =>
    if sep.isPrefixOf (c :: cs) then some ([], (c :: cs).drop sep.length)
    else match breakOn sep cs with
      | some (x, y) => some (c :: x, y)
      | none => none

/-- Scheme and host extraction of the `net/url` parse used by the adapter:
for the absolute URLs this API handles the scheme is the segment before
`://` and the host is the authority segment after it, up to the next `/`;
a string without an authority yields neither (which is what `validateURL`
rejects).  This models the standard-library parser only as far as the
adapter's absolute-URL check consumes it. -/
def urlSchemeHost (raw : String) : String × String :=
  match breakOn "://".toList raw.toList with
  | some (scheme, rest) =>
    (String.mk scheme, String.mk (rest.takeWhile (fun c => c ≠ '/')))
  | none => ("", "")

/-- The adapter helper `validateURL`: parse the raw URL and reject it when
`parsed.Scheme == "" || parsed.Host == ""`. -/
def validateURL (raw : String) : Bool :=
  !((urlSchemeHost raw).1 == "" || (urlSchemeHost raw).2 == "")

/-- Transport-level outcome of the adapter's `addPlaylist` handler. -/
inductive AdapterOutcome where
  | badRequest (msg : String)
  | notFound
  | created (deviceId name url : String)
  | internalError
deriving DecidableEq

/-- The request adapter's `API.addPlaylist` handler after JSON decoding:
trims name and url, rejects an empty name, an empty url, or a
non-absolute url with a 400-style message without touching the store, and
only then delegates to `Store.AddPlaylist`, mapping
`store.ErrDeviceNotFound` to a 404 and any other error to a 500. -/
def addPlaylistHandler (s : State) (f : Fault) (now : Nat)
    (deviceID rawName rawURL : String) : AdapterOutcome × State :=
  let name := trimSpace rawName
  let url := trimSpace rawURL
  if name == "" then (.badRequest "name is required", s)
  else if url == "" then (.badRequest "url is required", s)
  else if !validateURL url then
    (.badRequest "url must be a valid absolute URL", s)
  else
    match addPlaylist s f now deviceID name url with
    | (.error .deviceNotFound, s1) => (.notFound, s1)
    | (.error .ioFailure, s1) => (.internalError, s1)
    | (.ok _, s1) => (.created deviceID name url, s1)

/-- Decidable equality for the results of fallible operations. -/
instance {ε α : Type} [DecidableEq ε] [DecidableEq α] :
    DecidableEq (Except ε α) := fun a b =>
  match a, b with
  | .error e, .error f => decidable_of_iff (e = f) (by simp)
  | .ok x, .ok y => decidable_of_iff (x = y) (by simp)
  | .error _, .ok _ => isFalse (by simp)
  | .ok _, .error _ => isFalse (by simp)

/-- Concrete state with exactly the device `d` registered, used to
instantiate the universally quantified theorems below. -/
def regState : State := (createDevice initState 0 "d").2

/-- Concrete reachable state: register `d`, then attach one playlist. -/
def reachState2 : State :=
  (addPlaylist (createDevice initState 0 "d").2 .none 1 "d" "n" "u").2

/-- Concrete already-initialized database file. -/
def exFile : DBFile :=
  { devices := some { rows := [], seq := 1 },
    playlists := some { rows := [], seq := 1 } }

/-! ## Basic facts about the engine operations -/

theorem rowLe_trans (a b c : PlaylistRow) :
    rowLe a b = true → rowLe b c = true → rowLe a c = true := by
  simp only [rowLe, decide_eq_true_eq]
  omega

theorem rowLe_total (a b : PlaylistRow) : (rowLe a b || rowLe b a) = true := by
  simp only [rowLe, Bool.or_eq_true, decide_eq_true_eq]
  omega

theorem createDevice_existing (s : State) (now : Nat) (D : String)
    (h : deviceExists s D = true) : createDevice s now D = (false, s) := by
  simp [createDevice, h]

theorem createDevice_fresh (s : State) (now : Nat) (D : String)
    (h : deviceExists s D = false) :
    createDevice s now D = (true,
      { s with
        devices := s.devices ++
          [{ id := s.nextDeviceId, deviceIdentifier := D, createdAt := now }],
        nextDeviceId := s.nextDeviceId + 1 }) := by
  simp [createDevice, h]

theorem addPlaylist_commit (s : State) (now : Nat) (D n u : String)
    (h : deviceExists s D = true) :
    addPlaylist s .none now D n u = (.ok (),
      { s with
        playlists := s.playlists ++
          [{ id := s.nextPlaylistId, deviceIdentifier := D,
             name := n, url := u, createdAt := now }],
        nextPlaylistId := s.nextPlaylistId + 1 }) := by
  simp [addPlaylist, h]

theorem addPlaylist_faulted (s : State) (f : Fault) (now : Nat) (D n u : String)
    (h : deviceExists s D = true) (hf : f ≠ .none) :
    addPlaylist s f now D n u = (.error .ioFailure, s) := by
  cases f with
  | none => exact absurd rfl hf
  | atInsert => simp [addPlaylist, h]
  | atCommit => simp [addPlaylist, h]

theorem addPlaylist_missing (s : State) (f : Fault) (now : Nat) (D n u : String)
    (h : deviceExists s D = false) :
    addPlaylist s f now D n u = (.error .deviceNotFound, s) := by
  simp [addPlaylist, h]

theorem addPlaylist_devices (s : State) (f : Fault) (now : Nat)
    (D n u : String) : ((addPlaylist s f now D n u).2).devices = s.devices := by
  by_cases h : deviceExists s D = true
  · cases f with
    | none => rw [addPlaylist_commit s now D n u h]
    | atInsert => rw [addPlaylist_faulted s .atInsert now D n u h (by simp)]
    | atCommit => rw [addPlaylist_faulted s .atCommit now D n u h (by simp)]
  · rw [addPlaylist_missing s f now D n u (by simpa using h)]

theorem deviceExists_addPlaylist (s : State) (f : Fault) (now : Nat)
    (D n u X : String) :
    deviceExists (addPlaylist s f now D n u).2 X = deviceExists s X := by
  unfold deviceExists
  rw [addPlaylist_devices]

theorem deviceExists_append (s : State) (d : DeviceRow) (k : Nat) (X : String) :
    deviceExists { s with devices := s.devices ++ [d], nextDeviceId := k } X =
      (deviceExists s X || (d.deviceIdentifier == X)) := by
  simp [deviceExists, List.any_append]

theorem refIntact_of_reachable (s : State) (h : Reachable s) : refIntact s := by
  induction h with
  | init => intro p hp; simp [initState] at hp
  | register s now D _ ih =>
    intro p hp
    by_cases hD : deviceExists s D = true
    · rw [createDevice_existing s now D hD] at hp ⊢
      exact ih p hp
    · rw [createDevice_fresh s now D (by simpa using hD)] at hp ⊢
      rw [deviceExists_append]
      have hp' : p ∈ s.playlists := hp
      rw [ih p hp']
      rfl
  | attach s f now D n u _ ih =>
    intro p hp
    rw [deviceExists_addPlaylist]
    by_cases hD : deviceExists s D = true
    · cases f with
      | none =>
        rw [addPlaylist_commit s now D n u hD] at hp
        simp only [List.mem_append, List.mem_singleton] at hp
        rcases hp with hp | hp
        · exact ih p hp
        · rw [hp]; exact hD
      | atInsert =>
        rw [addPlaylist_faulted s .atInsert now D n u hD (by simp)] at hp
        exact ih p hp
      | atCommit =>
        rw [addPlaylist_faulted s .atCommit now D n u hD (by simp)] at hp
        exact ih p hp
    · rw [addPlaylist_missing s f now D n u (by simpa using hD)] at hp
      exact ih p hp

theorem filter_playlists_nil (s : State) (D : String) (hri : refIntact s)
    (h : deviceExists s D = false) :
    s.playlists.filter (fun p => p.deviceIdentifier == D) = [] := by
  rw [List.filter_eq_nil_iff]
  intro p hp
  have hd := hri p hp
  simp only [beq_iff_eq]
  intro he
  rw [he] at hd
  rw [hd] at h
  cases h

theorem filter_devices_nil (s : State) (D : String)
    (h : deviceExists s D = false) :
    s.devices.filter (fun d => d.deviceIdentifier == D) = [] := by
  rw [List.filter_eq_nil_iff]
  intro d hd
  exact List.any_eq_false.mp h d hd

theorem attach3_state (s : State) (t : Nat) (D n1 u1 n2 u2 n3 u3 : String)
    (hD : deviceExists s D = true) :
    (addPlaylist (addPlaylist (addPlaylist s .none t D n1 u1).2
        .none t D n2 u2).2 .none t D n3 u3).2 =
      { s with
        playlists := s.playlists ++
          [{ id := s.nextPlaylistId, deviceIdentifier := D,
             name := n1, url := u1, createdAt := t },
           { id := s.nextPlaylistId + 1, deviceIdentifier := D,
             name := n2, url := u2, createdAt := t },
           { id := s.nextPlaylistId + 2, deviceIdentifier := D,
             name := n3, url := u3, createdAt := t }],
        nextPlaylistId := s.nextPlaylistId + 3 } := by
  have hD2 : deviceExists
      { s with
        playlists := s.playlists ++
          [{ id := s.nextPlaylistId, deviceIdentifier := D,
             name := n1, url := u1, createdAt := t }],
        nextPlaylistId := s.nextPlaylistId + 1 } D = true := hD
  have hD3 : deviceExists
      { s with
        playlists := s.playlists ++
          [{ id := s.nextPlaylistId, deviceIdentifier := D,
             name := n1, url := u1, createdAt := t },
           { id := s.nextPlaylistId + 1, deviceIdentifier := D,
             name := n2, url := u2, createdAt := t }],
        nextPlaylistId := s.nextPlaylistId + 2 } D = true := hD
  have e1 : (addPlaylist s .none t D n1 u1).2 =
      { s with
        playlists := s.playlists ++
          [{ id := s.nextPlaylistId, deviceIdentifier := D,
             name := n1, url := u1, createdAt := t }],
        nextPlaylistId := s.nextPlaylistId + 1 } := by
    rw [addPlaylist_commit s t D n1 u1 hD]
  have e2 : (addPlaylist
      { s with
        playlists := s.playlists ++
          [{ id := s.nextPlaylistId, deviceIdentifier := D,
             name := n1, url := u1, createdAt := t }],
        nextPlaylistId := s.nextPlaylistId + 1 } .none t D n2 u2).2 =
      { s with
        playlists := s.playlists ++
          [{ id := s.nextPlaylistId, deviceIdentifier := D,
             name := n1, url := u1, createdAt := t },
           { id := s.nextPlaylistId + 1, deviceIdentifier := D,
             name := n2, url := u2, createdAt := t }],
        nextPlaylistId := s.nextPlaylistId + 2 } := by
    rw [addPlaylist_commit _ t D n2 u2 hD2]
    simp [List.append_assoc]
  have e3 : (addPlaylist
      { s with
        playlists := s.playlists ++
          [{ id := s.nextPlaylistId, deviceIdentifier := D,
             name := n1, url := u1, createdAt := t },
           { id := s.nextPlaylistId + 1, deviceIdentifier := D,
             name := n2, url := u2, createdAt := t }],
        nextPlaylistId := s.nextPlaylistId + 2 } .none t D n3 u3).2 =
      { s with
        playlists := s.playlists ++
          [{ id := s.nextPlaylistId, deviceIdentifier := D,
             name := n1, url := u1, createdAt := t },
           { id := s.nextPlaylistId + 1, deviceIdentifier := D,
             name := n2, url := u2, createdAt := t },
           { id := s.nextPlaylistId + 2, deviceIdentifier := D,
             name := n3, url := u3, createdAt := t }],
        nextPlaylistId := s.nextPlaylistId + 3 } := by
    rw [addPlaylist_commit _ t D n3 u3 hD3]
    simp [List.append_assoc]
  rw [e1, e2, e3]

/-! ## Claims -/

/-- C1: attaching a playlist to an unregistered device fails with
`DeviceNotFound`, returns the store unchanged, and leaves zero playlist
rows for that device. -/
theorem attachPlaylist_unregistered_fails (s : State) (f : Fault) (now : Nat)
    (D n u : String) (hs : Reachable s) (h : deviceExists s D = false) :
    addPlaylist s f now D n u = (.error .deviceNotFound, s) ∧
    ((addPlaylist s f now D n u).2).playlists.filter
      (fun p => p.deviceIdentifier == D) = [] := by
  have he := addPlaylist_missing s f now D n u h
  refine ⟨he, ?_⟩
  rw [he]
  exact filter_playlists_nil s D (refIntact_of_reachable s hs) h

/-- Witness for C1 at a concrete reachable store. -/
theorem attachPlaylist_unregistered_fails_witness :
    addPlaylist regState .none 5 "x" "n" "u" =
      (.error .deviceNotFound, regState) ∧
    ((addPlaylist regState .none 5 "x" "n" "u").2).playlists.filter
      (fun p => p.deviceIdentifier == "x") = [] :=
  attachPlaylist_unregistered_fails regState .none 5 "x" "n" "u"
    (Reachable.register initState 0 "d" Reachable.init) (by decide)

/-- C2: registering the same unregistered identifier twice returns `true`
then `false` (never a uniqueness error: the conflict is absorbed by
`ON CONFLICT DO NOTHING`, so the only possible failure is a storage
error), and exactly one device row with that identifier exists
afterwards. -/
theorem registerDevice_idempotent_pair (s : State) (t1 t2 : Nat) (D : String)
    (h : deviceExists s D = false) :
    (createDevice s t1 D).1 = true ∧
    (createDevice (createDevice s t1 D).2 t2 D).1 = false ∧
    (((createDevice (createDevice s t1 D).2 t2 D).2).devices.filter
      (fun d => d.deviceIdentifier == D)).length = 1 := by
  rw [createDevice_fresh s t1 D h]
  have hex : deviceExists
      { s with
        devices := s.devices ++
          [{ id := s.nextDeviceId, deviceIdentifier := D, createdAt := t1 }],
        nextDeviceId := s.nextDeviceId + 1 } D = true := by
    rw [deviceExists_append]
    simp
  rw [createDevice_existing _ t2 D hex]
  refine ⟨rfl, rfl, ?_⟩
  simp [List.filter_append, filter_devices_nil s D h]

/-- Witness for C2 starting from the fresh store. -/
theorem registerDevice_idempotent_pair_witness :
    (createDevice initState 0 "d").1 = true ∧
    (createDevice (createDevice initState 0 "d").2 1 "d").1 = false ∧
    (((createDevice (createDevice initState 0 "d").2 1 "d").2).devices.filter
      (fun d => d.deviceIdentifier == "d")).length = 1 :=
  registerDevice_idempotent_pair initState 0 1 "d" (by decide)

/-- Counterexample for C3: the caller-visible result of a successful
`AddPlaylist` cannot be the assigned creation timestamp, because two
successful calls whose rows receive different timestamps (5 and 7) return
identical values: the operation's result type in the store interface is a
bare `error`, so success carries no payload at all. -/
theorem addPlaylist_result_carries_no_timestamp :
    (addPlaylist regState .none 5 "d" "n" "u").1 =
      (addPlaylist regState .none 7 "d" "n" "u").1 ∧
    ((addPlaylist regState .none 5 "d" "n" "u").2).playlists.map
      PlaylistRow.createdAt = [5] ∧
    ((addPlaylist regState .none 7 "d" "n" "u").2).playlists.map
      PlaylistRow.createdAt = [7] ∧
    (5 : Nat) ≠ 7 := by decide

/-- C3 (amended): a successful `AttachPlaylist` returns plain success with
no payload; the assigned creation timestamp is recorded on the persisted
row (observable via `ListPlaylists`) but is not returned to the caller. -/
theorem addPlaylist_success_returns_unit (s : State) (now : Nat)
    (D n u : String) (hD : deviceExists s D = true) :
    (addPlaylist s .none now D n u).1 = .ok () ∧
    ((addPlaylist s .none now D n u).2).playlists.map PlaylistRow.createdAt =
      s.playlists.map PlaylistRow.createdAt ++ [now] := by
  rw [addPlaylist_commit s now D n u hD]
  simp

/-- Witness for the amended C3 on a concrete store. -/
theorem addPlaylist_success_returns_unit_witness :
    (addPlaylist regState .none 5 "d" "n" "u").1 = .ok () ∧
    ((addPlaylist regState .none 5 "d" "n" "u").2).playlists.map
      PlaylistRow.createdAt =
      regState.playlists.map PlaylistRow.createdAt ++ [5] :=
  addPlaylist_success_returns_unit regState 5 "d" "n" "u" (by decide)

/-- C4: on a registered device `ListPlaylists` returns exactly the
device's playlist rows arranged pairwise by creation time ascending with
insertion sequence as tie-break; and three playlists attached in order
with identical timestamps come back in exactly that order. -/
theorem listPlaylists_ordered :
    (∀ s D, deviceExists s D = true →
      ∃ rows : List PlaylistRow,
        List.Perm (s.playlists.filter (fun p => p.deviceIdentifier == D)) rows ∧
        List.Pairwise (fun a b => rowLe a b = true) rows ∧
        listPlaylists s D = .ok (rows.map toPlaylist)) ∧
    (∀ s D (t : Nat) (n1 u1 n2 u2 n3 u3 : String),
      deviceExists s D = true →
      s.playlists.filter (fun p => p.deviceIdentifier == D) = [] →
      listPlaylists
        (addPlaylist (addPlaylist (addPlaylist s .none t D n1 u1).2
          .none t D n2 u2).2 .none t D n3 u3).2 D =
        .ok [{ name := n1, url := u1, createdAt := t },
             { name := n2, url := u2, createdAt := t },
             { name := n3, url := u3, createdAt := t }]) := by
  constructor
  · intro s D hD
    refine ⟨(s.playlists.filter (fun p => p.deviceIdentifier == D)).mergeSort rowLe,
      (List.mergeSort_perm _ rowLe).symm,
      List.sorted_mergeSort rowLe_trans rowLe_total _, ?_⟩
    simp [listPlaylists, hD]
  · intro s D t n1 u1 n2 u2 n3 u3 hD hnil
    rw [attach3_state s t D n1 u1 n2 u2 n3 u3 hD]
    have hD' : deviceExists
        { s with
          playlists := s.playlists ++
            [{ id := s.nextPlaylistId, deviceIdentifier := D,
               name := n1, url := u1, createdAt := t },
             { id := s.nextPlaylistId + 1, deviceIdentifier := D,
               name := n2, url := u2, createdAt := t },
             { id := s.nextPlaylistId + 2, deviceIdentifier := D,
               name := n3, url := u3, createdAt := t }],
          nextPlaylistId := s.nextPlaylistId + 3 } D = true := hD
    rw [listPlaylists, if_pos hD']
    have hsorted : List.Pairwise (fun a b => rowLe a b = true)
        ([{ id := s.nextPlaylistId, deviceIdentifier := D,
            name := n1, url := u1, createdAt := t },
          { id := s.nextPlaylistId + 1, deviceIdentifier := D,
            name := n2, url := u2, createdAt := t },
          { id := s.nextPlaylistId + 2, deviceIdentifier := D,
            name := n3, url := u3, createdAt := t }] : List PlaylistRow) := by
      simp [List.pairwise_cons, rowLe]
    have hfil : ({ s with
          playlists := s.playlists ++
            [{ id := s.nextPlaylistId, deviceIdentifier := D,
               name := n1, url := u1, createdAt := t },
             { id := s.nextPlaylistId + 1, deviceIdentifier := D,
               name := n2, url := u2, createdAt := t },
             { id := s.nextPlaylistId + 2, deviceIdentifier := D,
               name := n3, url := u3, createdAt := t }],
          nextPlaylistId := s.nextPlaylistId + 3 } : State).playlists.filter
        (fun p => p.deviceIdentifier == D) =
        [{ id := s.nextPlaylistId, deviceIdentifier := D,
           name := n1, url := u1, createdAt := t },
         { id := s.nextPlaylistId + 1, deviceIdentifier := D,
           name := n2, url := u2, createdAt := t },
         { id := s.nextPlaylistId + 2, deviceIdentifier := D,
           name := n3, url := u3, createdAt := t }] := by
      simp only [List.filter_append, hnil, List.nil_append, List.filter_cons,
        List.filter_nil, beq_self_eq_true, if_true]
    rw [hfil, List.mergeSort_of_sorted hsorted]
    simp [toPlaylist]

/-- Witness for C4: three playlists with the same timestamp attached to a
concrete registered device come back in insertion order. -/
theorem listPlaylists_ordered_witness :
    listPlaylists
      (addPlaylist (addPlaylist (addPlaylist regState .none 7 "d" "n1" "u1").2
        .none 7 "d" "n2" "u2").2 .none 7 "d" "n3" "u3").2 "d" =
      .ok [{ name := "n1", url := "u1", createdAt := 7 },
           { name := "n2", url := "u2", createdAt := 7 },
           { name := "n3", url := "u3", createdAt := 7 }] :=
  listPlaylists_ordered.2 regState "d" 7 "n1" "u1" "n2" "u2" "n3" "u3"
    (by decide) (by decide)

/-- C5: on a registered device with zero playlist rows `ListPlaylists`
returns the empty sequence without error; on an unregistered device it
returns `DeviceNotFound`; the two outcomes are distinct values. -/
theorem listPlaylists_empty_vs_missing :
    (∀ s D, deviceExists s D = true →
      s.playlists.filter (fun p => p.deviceIdentifier == D) = [] →
      listPlaylists s D = .ok []) ∧
    (∀ s D, deviceExists s D = false →
      listPlaylists s D = .error .deviceNotFound) ∧
    (Except.ok ([] : List Playlist) : Except StoreError (List Playlist)) ≠
      .error .deviceNotFound := by
  refine ⟨?_, ?_, by simp⟩
  · intro s D hD hnil
    simp [listPlaylists, hD, hnil]
  · intro s D hD
    simp [listPlaylists, hD]

/-- Witness for C5 on a concrete store. -/
theorem listPlaylists_empty_vs_missing_witness :
    listPlaylists regState "d" = .ok [] ∧
    listPlaylists regState "x" = .error .deviceNotFound :=
  ⟨listPlaylists_empty_vs_missing.1 regState "d" (by decide) (by decide),
   listPlaylists_empty_vs_missing.2.1 regState "x" (by decide)⟩

/-- C6: a storage fault after the device-existence check but before commit
(at the playlist insert or at commit) surfaces a storage error and rolls
the transaction back: the post-call state is exactly the pre-call state,
so no playlist row is persisted. -/
theorem addPlaylist_fault_rolls_back (s : State) (f : Fault) (now : Nat)
    (D n u : String) (hD : deviceExists s D = true) (hf : f ≠ .none) :
    addPlaylist s f now D n u = (.error .ioFailure, s) ∧
    ((addPlaylist s f now D n u).2).playlists = s.playlists := by
  have he := addPlaylist_faulted s f now D n u hD hf
  exact ⟨he, by rw [he]⟩

/-- Witness for C6 with a fault at commit. -/
theorem addPlaylist_fault_rolls_back_witness :
    addPlaylist regState .atCommit 4 "d" "n" "u" =
      (.error .ioFailure, regState) ∧
    ((addPlaylist regState .atCommit 4 "d" "n" "u").2).playlists =
      regState.playlists :=
  addPlaylist_fault_rolls_back regState .atCommit 4 "d" "n" "u"
    (by decide) (by decide)

/-- C7: referential integrity is an invariant of every reachable store
state: every playlist row's owning device identifier names an existing
device row. -/
theorem reachable_referential_integrity (s : State) (hs : Reachable s) :
    ∀ p ∈ s.playlists, deviceExists s p.deviceIdentifier = true :=
  refIntact_of_reachable s hs

/-- Witness for C7 at a concrete reachable state with one playlist. -/
theorem reachable_referential_integrity_witness :
    deviceExists reachState2 "d" = true :=
  reachable_referential_integrity reachState2
    (Reachable.attach (createDevice initState 0 "d").2 .none 1 "d" "n" "u"
      (Reachable.register initState 0 "d" Reachable.init))
    { id := 1, deviceIdentifier := "d", name := "n", url := "u", createdAt := 1 }
    (by decide)

/-- C8: schema creation is idempotent: on an already-initialized file
`migrate` changes nothing (schema and rows preserved), and running the
open-time migration twice equals running it once. -/
theorem migrate_idempotent (f : DBFile) :
    (schemaInitialized f = true → migrate f = f) ∧
    migrate (migrate f) = migrate f := by
  obtain ⟨od, op⟩ := f
  cases od <;> cases op <;> simp [migrate, schemaInitialized]

/-- Witness for C8 on a concrete initialized file. -/
theorem migrate_idempotent_witness :
    migrate exFile = exFile ∧ migrate (migrate exFile) = migrate exFile :=
  ⟨(migrate_idempotent exFile).1 (by decide), (migrate_idempotent exFile).2⟩

/-- C9: repeating `RegisterDevice` on an already-registered identifier is
a complete no-op: it returns `false` together with the exact previous
state, so the device's row (identifier and creation timestamp included),
all other devices, and all playlists are unchanged and no row is added. -/
theorem registerDevice_repeat_noop (s : State) (now : Nat) (D : String)
    (h : deviceExists s D = true) : createDevice s now D = (false, s) :=
  createDevice_existing s now D h

/-- Witness for C9 on a concrete store holding the device. -/
theorem registerDevice_repeat_noop_witness :
    createDevice regState 9 "d" = (false, regState) :=
  registerDevice_repeat_noop regState 9 "d" (by decide)

/-- C10: the engine enforces no input precondition: for an existing
device, `AddPlaylist` succeeds for every name and url (empty, untrimmed,
non-absolute included), persisting the row exactly as given; the
non-empty/trim/absolute-URL checks live only in the request adapter,
which rejects such inputs before the store is ever called. -/
theorem addPlaylist_no_engine_validation :
    (∀ s now D n u, deviceExists s D = true →
      addPlaylist s .none now D n u = (.ok (),
        { s with
          playlists := s.playlists ++
            [{ id := s.nextPlaylistId, deviceIdentifier := D,
               name := n, url := u, createdAt := now }],
          nextPlaylistId := s.nextPlaylistId + 1 })) ∧
    addPlaylistHandler regState .none 3 "d" "   " "https://example.com/a" =
      (.badRequest "name is required", regState) ∧
    addPlaylistHandler regState .none 3 "d" "My playlist" "" =
      (.badRequest "url is required", regState) ∧
    addPlaylistHandler regState .none 3 "d" "My playlist" "not-absolute" =
      (.badRequest "url must be a valid absolute URL", regState) := by
  refine ⟨?_, by decide, by decide, by decide⟩
  intro s now D n u hD
  exact addPlaylist_commit s now D n u hD

/-- Witness for C10: the engine accepts an empty name and an untrimmed
non-absolute url verbatim. -/
theorem addPlaylist_no_engine_validation_witness :
    addPlaylist regState .none 3 "d" "" " not a url " = (.ok (),
      { regState with
        playlists := regState.playlists ++
          [{ id := regState.nextPlaylistId, deviceIdentifier := "d",
             name := "", url := " not a url ", createdAt := 3 }],
        nextPlaylistId := regState.nextPlaylistId + 1 }) :=
  addPlaylist_no_engine_validation.1 regState 3 "d" "" " not a url " (by decide)

end SciPlayer
